import Mathlib

/-!
Verification development for the errbot Mattermost backend
(`plugins/errbot-mattermost-backend/mattermost.py`).

The Python source is shallowly embedded: strings are `List Char`
(so that Python's character-level slicing is exact), JSON objects become
structures whose optional keys are `Option`-valued, exceptions become
`Except PyError`, and the stateful parts (the LRU cache of
`get_direct_channel`, instrumented with a platform-call counter) are passed
as explicit state.  The platform client (`mattermostdriver.Driver`) is an
external collaborator and is modelled as a record of pure functions.
-/

set_option autoImplicit false

/-- Strings of the Python program are modelled at character level. -/
abbrev Str := List Char

/-- The backquote character (Python `'\x60'`), written via its code point. -/
def bq : Char := Char.ofNat 96

/-! ## Message chunking (`prepare_message_body`)

`errbot.utils.split_string_after` is a dependency of the backend (from the
errbot library, not part of this repository).  Its source is
`for start in range(0, len(str_), n): yield str_[start:start + n]`,
i.e. fixed-size slices.  For `n = 0` Python's `range` raises `ValueError`;
the backend only calls it with positive limits, and the model returns `[]`
in that unreachable case. -/
def split_string_after (s : Str) (n : Nat) : List Str :=
  (List.range ((s.length + n - 1) / n)).map (fun i => (s.drop (i * n)).take n)

/-- Python's `part.count('\x60\x60\x60')`: the number of non-overlapping
occurrences of three consecutive backquotes, scanned greedily from the
left. -/
def count3bt : Str → Nat
  | a :: b :: c :: rest =>
    if a = bq ∧ b = bq ∧ c = bq then count3bt rest + 1
    else count3bt (b :: c :: rest)
  | _ => 0

/-- Python's `body.startswith('\x60\x60\x60')`. -/
def starts_with_fence (s : Str) : Prop := s.take 3 = [bq, bq, bq]

instance starts_with_fence_dec (s : Str) : Decidable (starts_with_fence s) := by
  unfold starts_with_fence; infer_instance

/-- The string `'\x60\x60\x60\n'` prepended to continuation parts. -/
def open_fence : Str := [bq, bq, bq, '\n']

/-- The string `'\n\x60\x60\x60\n'` appended to close an open fence. -/
def close_fence : Str := ['\n', bq, bq, bq, '\n']

/-- Model of `MattermostBackend.prepare_message_body(body, size_limit)`.
The single-part branch only repairs an odd fence count; the multi-part
branch first prepends an opening fence to any part that does not start with
one when the whole body did (`fixed_format`), then repairs odd fence
counts. -/
def prepare_message_body (body : Str) (size_limit : Nat) : List Str :=
  match split_string_after body size_limit with
  | [p] => [if count3bt p % 2 ≠ 0 then p ++ close_fence else p]
  | parts =>
    parts.map (fun part =>
      let part1 :=
        if starts_with_fence body ∧ ¬ starts_with_fence part then
          open_fence ++ part
        else part
      if count3bt part1 % 2 ≠ 0 then part1 ++ close_fence else part1)

/-! ## Errors and platform client

Python exceptions are modelled by `PyError`; the wrapped REST client
(`mattermostdriver.Driver`) is an external collaborator, modelled as a
record of pure functions returning `Except DriverErr`. -/

/-- Exceptions raised by the `mattermostdriver` client. -/
inductive DriverErr
  | invalidOrMissingParameters
  | notEnoughPermissions
  | resourceNotFound
  | featureDisabled
  | contentTooLarge
  deriving DecidableEq

/-- Python exceptions that can escape the modelled functions. -/
inductive PyError
  | keyError (k : String)
  | jsonDecodeError
  | valueError (msg : String)
  | userDoesNotExist
  | roomDoesNotExist
  | driverError (e : DriverErr)
  deriving DecidableEq

/-- A user object returned by the platform (`user['id']`). -/
structure MMUser where
  id : Str

/-- A channel object returned by the platform; the backend indexes the keys
`'id'` and `'name'`, either of which may be missing from an error payload. -/
structure MMChannel where
  id : Option Str
  name : Option Str

/-- The platform client capabilities the modelled core uses.
`get_channel` takes an `Option` because `MattermostRoom.__init__` passes
`channelid=None` through to it when both `name` and `channelid` are absent. -/
structure Driver where
  get_user_by_username : Str → Option MMUser
  create_direct_message_channel : Str → Str → Except DriverErr MMChannel
  get_channel : Option Str → Except DriverErr MMChannel
  get_channel_by_name : Str → Str → Except DriverErr MMChannel

/-! ## Domain identifiers -/

/-- Model of `MattermostPerson` (identity fields only; username and full
name are network lookups, not state). -/
structure MPerson where
  userid : Str
  channelid : Option Str
  teamid : Option Str

/-- Model of `MattermostRoom` state after `__init__`. -/
structure MRoom where
  name : Str
  teamid : Str
  id : Option Str

/-- A resolved identifier: `MattermostPerson`, `MattermostRoomOccupant`
(a person together with its room), or `MattermostRoom`. -/
inductive MMId
  | person (p : MPerson)
  | occupant (p : MPerson) (room : MRoom)
  | room (r : MRoom)

/-- The userid carried by a sender identifier (`[]` for a bare room). -/
def MMId.uid : MMId → Str
  | .person p => p.userid
  | .occupant p _ => p.userid
  | .room _ => []

/-- Backend state: configuration bound at login plus the
`functools.lru_cache(1024)` attached to `get_direct_channel`, keyed by the
`(userid, other_user_id)` pair, most-recently-used first.  `direct_calls`
instruments the model: it counts actual
`create_direct_message_channel` platform calls. -/
structure BotSt where
  driver : Driver
  teamid : Str
  team : Str
  self_userid : Str
  scheme : Str
  url : Str
  port : Nat
  cache : List ((Str × Str) × MMChannel)
  direct_calls : Nat

/-- Python's `str.strip()`. -/
def pystrip (s : Str) : Str :=
  ((s.dropWhile Char.isWhitespace).reverse.dropWhile Char.isWhitespace).reverse

/-! ## Identity resolution -/

/-- Model of `username_to_userid`: `name.lstrip('@')`, then a user lookup
that raises `UserDoesNotExistError` when the platform returns nothing. -/
def username_to_userid (b : BotSt) (name : Str) : Except PyError Str :=
  match b.driver.get_user_by_username (name.dropWhile (fun c => c = '@')) with
  | none => .error .userDoesNotExist
  | some u => .ok u.id

/-- Model of `channelid_to_channelname`: fetch the channel by id and read
its `'name'` key, raising `RoomDoesNotExistError` when absent. -/
def channelid_to_channelname (b : BotSt) (channelid : Option Str) :
    Except PyError Str :=
  match b.driver.get_channel channelid with
  | .error e => .error (.driverError e)
  | .ok ch =>
    match ch.name with
    | none => .error .roomDoesNotExist
    | some nm => .ok nm

/-- Model of `channelname_to_channelid`: fetch the channel by name in the
bound team and read its `'id'` key. -/
def channelname_to_channelid (b : BotSt) (name : Str) : Except PyError Str :=
  match b.driver.get_channel_by_name b.teamid name with
  | .error e => .error (.driverError e)
  | .ok ch =>
    match ch.id with
    | none => .error .roomDoesNotExist
    | some cid => .ok cid

/-- Model of `MattermostRoom.__init__(name, channelid, teamid, bot)`:
mutual-exclusion and teamid validation, tilde stripping for names, and the
`channelid_to_channelname` lookup when no name is supplied (also reached
with `channelid=None` when both are absent). -/
def MattermostRoom_init (b : BotSt) (name channelid teamid : Option Str) :
    Except PyError MRoom :=
  if channelid.isSome ∧ name.isSome then
    .error (.valueError "channelid and name are mutually exclusive")
  else
    match teamid with
    | none => .error (.valueError "teamid is not optional")
    | some tid =>
      match name with
      | some n =>
        .ok { name := if n.head? = some '~' then n.drop 1 else n,
              teamid := tid, id := channelid }
      | none =>
        match channelid_to_channelname b channelid with
        | .error e => .error e
        | .ok nm => .ok { name := nm, teamid := tid, id := channelid }

/-- Model of `get_direct_channel` with its `lru_cache(1024)`: a hit moves
the entry to the front and performs no platform call; a miss calls the
platform, inserts at the front and truncates to capacity 1024.  The two
permission/parameter exceptions are converted to `RoomDoesNotExistError`;
exception paths do not thread the state (nothing observes it there). -/
def get_direct_channel (b : BotSt) (userid other_user_id : Str) :
    Except PyError (MMChannel × BotSt) :=
  let k := (userid, other_user_id)
  match b.cache.find? (fun e => e.1 == k) with
  | some e =>
    .ok (e.2, { b with cache := (k, e.2) :: b.cache.eraseP (fun x => x.1 == k) })
  | none =>
    match b.driver.create_direct_message_channel userid other_user_id with
    | .ok ch =>
      .ok (ch, { b with
                 cache := ((k, ch) :: b.cache.eraseP (fun x => x.1 == k)).take 1024,
                 direct_calls := b.direct_calls + 1 })
    | .error e =>
      if e = DriverErr.invalidOrMissingParameters ∨
          e = DriverErr.notEnoughPermissions then
        .error .roomDoesNotExist
      else .error (.driverError e)

/-- Model of `build_identifier(txtrep)`: strip, then a tilde means a room
(name lookup, then `MattermostRoom(channelid=...)`), otherwise the sender
is a username (leading `@`) or a bare userid, and the person is built with
the direct channel to the bot.  Every branch returns or raises, so the
final `raise Exception` of the source is unreachable here. -/
def build_identifier (b : BotSt) (txtrep : Str) :
    Except PyError (MMId × BotSt) :=
  let t := pystrip txtrep
  if t.head? = some '~' then
    match channelname_to_channelid b (t.drop 1) with
    | .error e => .error e
    | .ok cid =>
      match MattermostRoom_init b none (some cid) (some b.teamid) with
      | .error e => .error e
      | .ok r => .ok (.room r, b)
  else
    match
      (if t.head? = some '@' then username_to_userid b (t.drop 1)
       else Except.ok t) with
    | .error e => .error e
    | .ok userid =>
      match get_direct_channel b b.self_userid userid with
      | .error e => .error e
      | .ok (ch, b1) =>
        match ch.id with
        | none => .error (.keyError "id")
        | some cid =>
          .ok (.person { userid := userid, channelid := some cid,
                         teamid := some b.teamid }, b1)

/-- Model of `mentions_build_identifier`: resolve each mention id except
the bot's own, in order, threading the cache state. -/
def mentions_build_identifier (b : BotSt) :
    List Str → Except PyError (List MMId × BotSt)
  | [] => .ok ([], b)
  | mention :: rest =>
    if mention = b.self_userid then mentions_build_identifier b rest
    else
      match build_identifier b mention with
      | .error e => .error e
      | .ok (idf, b1) =>
        match mentions_build_identifier b1 rest with
        | .error e => .error e
        | .ok (idfs, b2) => .ok (idf :: idfs, b2)

/-! ## Event envelopes

The websocket delivers a JSON text.  `data['post']` and `data['mentions']`
are themselves JSON-encoded strings needing a second decode pass, so they
are modelled as either `invalid` (the inner decode raises) or a decoded
value.  Missing keys are `none`; the handlers distinguish direct indexing
(raises `KeyError`) from membership tests. -/

/-- The decoded embedded post object. -/
structure MMPost where
  message : Option Str
  user_id : Option Str
  file_ids : Option (List Str)
  id : Option Str
  type : Option Str

/-- The JSON-encoded `data['post']` string before the second decode. -/
inductive PostRaw
  | invalid
  | valid (p : MMPost)

/-- The JSON-encoded `data['mentions']` string before the second decode. -/
inductive MentionsRaw
  | invalid
  | valid (ids : List Str)

/-- The `broadcast` object of an envelope. -/
structure Broadcast where
  channel_id : Option Str
  user_id : Option Str

/-- The `data` object of an envelope (keys the handlers touch). -/
structure MMData where
  team_id : Option Str
  channel_id : Option Str
  channel_type : Option Str
  channel_name : Option Str
  post : Option PostRaw
  user_id : Option Str
  mentions : Option MentionsRaw
  status : Option Str

/-- A decoded event envelope `{event, data, broadcast}`. -/
structure Envelope where
  event : Option Str
  data : Option MMData
  broadcast : Option Broadcast

/-- The normalized message the handler emits via `callback_message`
(attachment ids land in `extras['attachments']`, the permalink in
`extras['url']`). -/
structure EmittedMsg where
  text : Str
  url : Str
  attachments : Option (List Str)
  frm : MMId
  «to» : MMId

/-- A presence emitted via `callback_presence`. -/
inductive MMStatus
  | online
  | away
  deriving DecidableEq

/-- The identifier/status pair passed to `callback_presence`. -/
structure MPresence where
  userid : Str
  status : MMStatus

/-- Calls into the downstream callback layer. -/
inductive Callback
  | message (m : EmittedMsg)
  | mention (m : EmittedMsg) (ids : List MMId)
  | presence (p : MPresence)
  | connected
  | roomJoined
  | roomLeft

/-- Intermediate result of the `if 'post' in data` block. -/
inductive PostStep
  | drop
  | fields (text : Str) (userid : Option Str) (file_ids : Option (List Str))
      (post_id : Str)

/-- The channel-id resolution block: `data['channel_id']` if present, then
`broadcast['channel_id']`, else no channel id (log error and drop). -/
def resolve_channelid (data : MMData) (broadcast : Broadcast) : Option Str :=
  match data.channel_id with
  | some c => some c
  | none => broadcast.channel_id

/-- The `if 'post' in data` block: decode the embedded post, extract text,
sender id, attachment ids and post id, and drop `system_add_remove`
messages. -/
def post_step (data : MMData) : Except PyError PostStep :=
  match data.post with
  | none => Except.ok (PostStep.fields [] none none [])
  | some PostRaw.invalid => Except.error PyError.jsonDecodeError
  | some (PostRaw.valid post) =>
    match post.message with
    | none => Except.error (PyError.keyError "message")
    | some text =>
    match post.user_id with
    | none => Except.error (PyError.keyError "user_id")
    | some puid =>
    match post.id with
    | none => Except.error (PyError.keyError "id")
    | some pid =>
    if post.type = some "system_add_remove".toList then Except.ok PostStep.drop
    else Except.ok (PostStep.fields text (some puid) post.file_ids pid)

/-- The sender-id block: a top-level `data['user_id']`, when present,
overwrites whatever the post block produced. -/
def sender_userid (data : MMData) (userid0 : Option Str) : Option Str :=
  match data.user_id with
  | some u => some u
  | none => userid0

/-- The mentions block: `json.loads(data['mentions'])` when present, then
`mentions_build_identifier`. -/
def resolve_mentions (b : BotSt) (data : MMData) :
    Except PyError (List MMId × BotSt) :=
  match data.mentions with
  | none => Except.ok (([] : List MMId), b)
  | some MentionsRaw.invalid => Except.error PyError.jsonDecodeError
  | some (MentionsRaw.valid ids) => mentions_build_identifier b ids

/-- Model of `_message_event_handler`.  Returns `none` when the event is
dropped (logged and ignored), and the emitted message plus resolved
mentions otherwise; exceptions propagate as `Except.error` to the
dispatcher.  The state is threaded through mention resolution. -/
def _message_event_handler (b : BotSt) (m : Envelope) :
    Except PyError (Option (EmittedMsg × List MMId) × BotSt) :=
  match m.data with
  | none => .error (.keyError "data")
  | some data =>
  match data.team_id with
  | none => .error (.keyError "team_id")
  | some team_id =>
  if team_id ≠ [] ∧ b.teamid ≠ team_id then .ok (none, b)
  else
  match m.broadcast with
  | none => .error (.keyError "broadcast")
  | some broadcast =>
  match resolve_channelid data broadcast with
  | none => .ok (none, b)
  | some channelid =>
  match data.channel_type with
  | none => .error (.keyError "channel_type")
  | some channel_type =>
  match (if channel_type ≠ ['D'] then data.channel_name else some channelid) with
  | none => .error (.keyError "channel_name")
  | some channel =>
  match post_step data with
  | .error e => .error e
  | .ok PostStep.drop => .ok (none, b)
  | .ok (PostStep.fields text userid0 file_ids post_id) =>
  match sender_userid data userid0 with
  | none => .ok (none, b)
  | some userid =>
  if userid = [] then .ok (none, b)
  else
  match resolve_mentions b data with
  | .error e => .error e
  | .ok (mentions, b1) =>
  let url := b.scheme ++ "://".toList ++ b.url ++ ":".toList ++
    (toString b.port).toList ++ "/".toList ++ b.team ++ "/pl/".toList ++ post_id
  let attachments :=
    match file_ids with
    | some fl => if fl.isEmpty then none else some fl
    | none => none
  if channel_type = ['D'] then
    .ok (some
      ({ text := text, url := url, attachments := attachments,
         frm := MMId.person
           { userid := userid, channelid := some channelid, teamid := some b.teamid },
         «to» := MMId.person
           { userid := b.self_userid, channelid := some channelid,
             teamid := some b.teamid } },
       mentions), b1)
  else if channel_type = ['O'] ∨ channel_type = ['P'] then
    match MattermostRoom_init b1 none (some channelid) (some b.teamid) with
    | .error e => .error e
    | .ok occ_room =>
      match MattermostRoom_init b1 (some channel) none (some b.teamid) with
      | .error e => .error e
      | .ok to_room =>
        .ok (some
          ({ text := text, url := url, attachments := attachments,
             frm := MMId.occupant
               { userid := userid, channelid := some channelid,
                 teamid := some b.teamid } occ_room,
             «to» := MMId.room to_room },
           mentions), b1)
  else .ok (none, b1)

/-- The callbacks a `posted` event produces: `callback_message`, then
`callback_mention` when the mention list is non-empty. -/
def posted_callbacks (b : BotSt) (env : Envelope) :
    Except PyError (List Callback) :=
  match _message_event_handler b env with
  | .error e => .error e
  | .ok (none, _) => .ok []
  | .ok (some (msg, mentions), _) =>
    .ok (Callback.message msg ::
      (if mentions.isEmpty then [] else [Callback.mention msg mentions]))

/-- Model of `_status_change_event_handler`: builds the presence passed to
`callback_presence`; unknown status strings coerce to `ONLINE`. -/
def _status_change_event_handler (_b : BotSt) (m : Envelope) :
    Except PyError MPresence :=
  match m.data with
  | none => .error (.keyError "data")
  | some data =>
  match data.user_id with
  | none => .error (.keyError "user_id")
  | some uid =>
  match data.status with
  | none => .error (.keyError "status")
  | some status =>
  .ok { userid := uid,
        status :=
          if status = "online".toList then MMStatus.online
          else if status = "away".toList then MMStatus.away
          else MMStatus.online }

/-- The callback a `status_change` event produces. -/
def status_change_callbacks (b : BotSt) (m : Envelope) :
    Except PyError (List Callback) :=
  match _status_change_event_handler b m with
  | .error e => .error e
  | .ok p => .ok [Callback.presence p]

/-- Model of `_hello_event_handler`: `connect_callback`, then an online
presence for the bot itself. -/
def _hello_event_handler (b : BotSt) (_ : Envelope) :
    Except PyError (List Callback) :=
  .ok [Callback.connected,
    Callback.presence { userid := b.self_userid, status := MMStatus.online }]

/-- Model of `_room_joined_event_handler`: fires only for the bot's own id. -/
def _room_joined_event_handler (b : BotSt) (m : Envelope) :
    Except PyError (List Callback) :=
  match m.data with
  | none => .error (.keyError "data")
  | some data =>
    match data.user_id with
    | none => .error (.keyError "user_id")
    | some uid => .ok (if uid = b.self_userid then [Callback.roomJoined] else [])

/-- Model of `_room_left_event_handler`: compares the broadcast user id. -/
def _room_left_event_handler (b : BotSt) (m : Envelope) :
    Except PyError (List Callback) :=
  match m.broadcast with
  | none => .error (.keyError "broadcast")
  | some broadcast =>
    match broadcast.user_id with
    | none => .error (.keyError "user_id")
    | some uid => .ok (if uid = b.self_userid then [Callback.roomLeft] else [])

/-- A raw websocket payload as delivered to `mattermost_event_handler`:
falsy (`empty`), not decodable as JSON (`json.loads` raises), or a decoded
envelope. -/
inductive RawPayload
  | empty
  | invalid
  | parsed (e : Envelope)

/-- The `event_handlers` dictionary lookup (`event_handlers.get(event)`):
`none` models an unknown event kind. -/
def event_dispatch (b : BotSt) (ev : Str) (env : Envelope) :
    Option (Except PyError (List Callback)) :=
  if ev = "posted".toList then some (posted_callbacks b env)
  else if ev = "status_change".toList then some (status_change_callbacks b env)
  else if ev = "hello".toList then some (_hello_event_handler b env)
  else if ev = "user_added".toList then some (_room_joined_event_handler b env)
  else if ev = "user_removed".toList then some (_room_left_event_handler b env)
  else none

/-- Model of `mattermost_event_handler`: falsy payloads return; the JSON
decode happens OUTSIDE the try block, so an undecodable payload raises;
an envelope without an `event` key or with an unknown event kind is logged
and ignored; a per-kind handler runs inside `try/except Exception`, so its
exceptions are swallowed. -/
def mattermost_event_handler (b : BotSt) (payload : RawPayload) :
    Except PyError (List Callback) :=
  match payload with
  | .empty => .ok []
  | .invalid => .error .jsonDecodeError
  | .parsed env =>
    match env.event with
    | none => .ok []
    | some ev =>
      match event_dispatch b ev env with
      | none => .ok []
      | some (Except.ok cbs) => .ok cbs
      | some (Except.error _) => .ok []

/-! ## Concrete instances used by the witnesses -/

/-- A sample platform client used to instantiate the theorems. -/
def sample_driver : Driver where
  get_user_by_username := fun nm =>
    if nm = "bob".toList then some { id := "U1".toList } else none
  create_direct_message_channel := fun _ other =>
    if other = "U1".toList then
      .ok { id := some "D1".toList, name := none }
    else .error .invalidOrMissingParameters
  get_channel := fun c =>
    match c with
    | some cid => .ok { id := some cid, name := some "general".toList }
    | none => .error .resourceNotFound
  get_channel_by_name := fun _ nm =>
    .ok { id := some "C9".toList, name := some nm }

/-- A sample backend state bound to team `T1`. -/
def sample_bot : BotSt where
  driver := sample_driver
  teamid := "T1".toList
  team := "myteam".toList
  self_userid := "BOT".toList
  scheme := "https".toList
  url := "mm.example.com".toList
  port := 8065
  cache := []
  direct_calls := 0

/-- An envelope `data` object with every key absent. -/
def mmdata0 : MMData :=
  { team_id := none, channel_id := none, channel_type := none,
    channel_name := none, post := none, user_id := none, mentions := none,
    status := none }

/-- A sample `status_change` envelope with an unrecognized status string. -/
def env_status : Envelope :=
  { event := some "status_change".toList,
    data := some { mmdata0 with user_id := some "U7".toList,
                                status := some "dnd".toList },
    broadcast := none }

/-- A sample `posted` envelope from a foreign team `T2`. -/
def env_cross_team : Envelope :=
  { event := some "posted".toList,
    data := some { mmdata0 with team_id := some "T2".toList },
    broadcast := some { channel_id := none, user_id := none } }

/-- A sample embedded post authored by user `UP`. -/
def post_c2 : MMPost :=
  { message := some "hi".toList, user_id := some "UP".toList,
    file_ids := none, id := some "P1".toList, type := none }

/-- A sample `posted` data object carrying both an embedded post (from
`UP`) and a top-level `user_id` (`UD`), on an open channel of team `T1`. -/
def data_c2 : MMData :=
  { mmdata0 with
    team_id := some "T1".toList, channel_id := some "C1".toList,
    channel_type := some ['O'], channel_name := some "general".toList,
    post := some (PostRaw.valid post_c2), user_id := some "UD".toList }

/-- The envelope wrapping `data_c2`. -/
def env_c2 : Envelope :=
  { event := some "posted".toList, data := some data_c2,
    broadcast := some { channel_id := none, user_id := none } }

/-- The message `_message_event_handler sample_bot env_c2` emits. -/
def msg_c2 : EmittedMsg :=
  { text := "hi".toList,
    url := "https://mm.example.com:8065/myteam/pl/P1".toList,
    attachments := none,
    frm := MMId.occupant
      { userid := "UD".toList, channelid := some "C1".toList,
        teamid := some "T1".toList }
      { name := "general".toList, teamid := "T1".toList,
        id := some "C1".toList },
    «to» := MMId.room
      { name := "general".toList, teamid := "T1".toList, id := none } }

/-- A platform client whose channel lookups all fail, used to exercise the
error paths. -/
def sample_driver_fail : Driver where
  get_user_by_username := fun _ => none
  create_direct_message_channel := fun _ _ => .error .notEnoughPermissions
  get_channel := fun _ => .error .resourceNotFound
  get_channel_by_name := fun _ _ => .error .resourceNotFound

/-- The sample backend bound to the failing platform client. -/
def sample_bot_fail : BotSt := { sample_bot with driver := sample_driver_fail }

/-- The person `build_identifier sample_bot "@bob"` resolves to. -/
def person_c8 : MPerson :=
  { userid := "U1".toList, channelid := some "D1".toList,
    teamid := some "T1".toList }

/-- The backend state after the first `"@bob"` resolution: the direct
channel is cached and exactly one platform call was made. -/
def bot_c8 : BotSt :=
  { sample_bot with
    cache := [(("BOT".toList, "U1".toList),
      { id := some "D1".toList, name := none })],
    direct_calls := 1 }

theorem count3bt_nil : count3bt [] = 0 := rfl

theorem count3bt_one (x : Char) : count3bt [x] = 0 := rfl

theorem count3bt_two (x y : Char) : count3bt [x, y] = 0 := rfl

theorem count3bt_cons3 (a b c : Char) (rest : Str) :
    count3bt (a :: b :: c :: rest) =
      if a = bq ∧ b = bq ∧ c = bq then count3bt rest + 1
      else count3bt (b :: c :: rest) := rfl

/-- Counting fences distributes over an append whose right part does not
start with a backquote: no occurrence can span the boundary, and the
greedy scan of the left part is unaffected. -/
theorem count3bt_append (p q : Str) (hq : q.head? ≠ some bq) :
    count3bt (p ++ q) = count3bt p + count3bt q := by
  induction p using count3bt.induct with
  | case1 a b c rest h ih =>
    simp only [List.cons_append, count3bt_cons3, if_pos h]
    omega
  | case2 a b c rest h ih =>
    simp only [List.cons_append, count3bt_cons3, if_neg h]
    simpa using ih
  | case3 t h =>
    rcases t with _ | ⟨x, _ | ⟨y, _ | ⟨z, r⟩⟩⟩
    · simp [count3bt_nil]
    · rcases q with _ | ⟨q1, _ | ⟨q2, qt⟩⟩
      · simp [count3bt_one, count3bt_nil]
      · simp [count3bt_one, count3bt_two]
      · have hq1 : q1 ≠ bq := by simpa using hq
        simp only [List.cons_append, List.nil_append, count3bt_cons3,
          if_neg (by tauto : ¬(x = bq ∧ q1 = bq ∧ q2 = bq))]
        simp [count3bt_one]
    · rcases q with _ | ⟨q1, qt⟩
      · simp [count3bt_two, count3bt_nil]
      · have hq1 : q1 ≠ bq := by simpa using hq
        simp only [List.cons_append, List.nil_append, count3bt_cons3,
          if_neg (by tauto : ¬(x = bq ∧ y = bq ∧ q1 = bq))]
        rcases qt with _ | ⟨q2, qt2⟩
        · simp [count3bt_one, count3bt_two, count3bt_nil]
        · simp only [count3bt_cons3,
            if_neg (by tauto : ¬(y = bq ∧ q1 = bq ∧ q2 = bq))]
          simp [count3bt_two]
    · exact absurd rfl (fun hh => h x y z r hh)

theorem count3bt_close (p : Str) :
    count3bt (p ++ close_fence) = count3bt p + 1 := by
  rw [count3bt_append p close_fence (by decide),
    show count3bt close_fence = 1 from by decide]

theorem length_le_of_mem_split (s : Str) (n : Nat) (p : Str)
    (hp : p ∈ split_string_after s n) : p.length ≤ n := by
  unfold split_string_after at hp
  simp only [List.mem_map, List.mem_range] at hp
  obtain ⟨i, _, rfl⟩ := hp
  simp only [List.length_take]
  exact min_le_left _ _

/-- Applying the odd-fence repair to any string yields an even fence count. -/
theorem count3bt_fix_even (y : Str) :
    count3bt (if count3bt y % 2 ≠ 0 then y ++ close_fence else y) % 2 = 0 := by
  by_cases h : count3bt y % 2 ≠ 0
  · rw [if_pos h, count3bt_close]; omega
  · rw [if_neg h]; omega

/-- The odd-fence repair adds at most the five characters of `close_fence`. -/
theorem length_fix_le (y : Str) (n : Nat) (hy : y.length ≤ n) :
    (if count3bt y % 2 ≠ 0 then y ++ close_fence else y).length ≤ n + 5 := by
  by_cases h : count3bt y % 2 ≠ 0
  · rw [if_pos h]; simp only [List.length_append]; simp [close_fence]; omega
  · rw [if_neg h]; omega

/-- C4 counterexample: the claim "every part has length at most limit" is
false — on the body of four characters starting with an unterminated
fence, with limit 4, the fence repair appends a closing fence and the
single emitted part has length 9 > 4. -/
theorem prepare_message_body_limit_counterexample :
    0 < 4 ∧ ∃ part ∈ prepare_message_body [bq, bq, bq, 'a'] 4, ¬ part.length ≤ 4 := by
  decide

/-- C4 (amended): every part returned by `prepare_message_body body limit`
for a positive limit has length at most `limit + 9`; the raw split parts
are at most `limit` characters and the fence repair can prepend at most 4
and append at most 5 characters. -/
theorem prepare_message_body_parts_length (body : Str) (limit : Nat)
    (part : Str) (_hpos : 0 < limit)
    (hmem : part ∈ prepare_message_body body limit) :
    part.length ≤ limit + 9 := by
  unfold prepare_message_body at hmem
  rcases hsplit : split_string_after body limit with _ | ⟨p, rest⟩
  · rw [hsplit] at hmem; simp at hmem
  · rcases rest with _ | ⟨p2, rest2⟩
    · rw [hsplit] at hmem
      simp only [List.mem_singleton] at hmem
      subst hmem
      have hp : p.length ≤ limit :=
        length_le_of_mem_split body limit p (by rw [hsplit]; simp)
      have := length_fix_le p limit hp
      omega
    · rw [hsplit] at hmem
      simp only [List.mem_map] at hmem
      obtain ⟨x, hx, rfl⟩ := hmem
      have hxlen : x.length ≤ limit :=
        length_le_of_mem_split body limit x (by rw [hsplit]; exact hx)
      have h1 : (if starts_with_fence body ∧ ¬ starts_with_fence x then
          open_fence ++ x else x).length ≤ limit + 4 := by
        by_cases hf : starts_with_fence body ∧ ¬ starts_with_fence x
        · rw [if_pos hf]; simp only [List.length_append]; simp [open_fence]; omega
        · rw [if_neg hf]; omega
      have h2 := length_fix_le _ (limit + 4) h1
      omega

/-- C4 witness: the amended bound instantiated on the counterexample body. -/
theorem prepare_message_body_parts_length_witness :
    ([bq, bq, bq, 'a', '\n', bq, bq, bq, '\n'] : Str).length ≤ 4 + 9 :=
  prepare_message_body_parts_length [bq, bq, bq, 'a'] 4
    [bq, bq, bq, 'a', '\n', bq, bq, bq, '\n'] (by decide) (by decide)

/-- C5: every part emitted by `prepare_message_body` contains an even
number of triple-backquote fence markers, for every body and limit. -/
theorem prepare_message_body_parts_fence_balanced (body : Str) (limit : Nat)
    (part : Str) (hmem : part ∈ prepare_message_body body limit) :
    count3bt part % 2 = 0 := by
  unfold prepare_message_body at hmem
  rcases hsplit : split_string_after body limit with _ | ⟨p, rest⟩
  · rw [hsplit] at hmem; simp at hmem
  · rcases rest with _ | ⟨p2, rest2⟩
    · rw [hsplit] at hmem
      simp only [List.mem_singleton] at hmem
      subst hmem
      exact count3bt_fix_even p
    · rw [hsplit] at hmem
      simp only [List.mem_map] at hmem
      obtain ⟨x, hx, rfl⟩ := hmem
      exact count3bt_fix_even
        (if starts_with_fence body ∧ ¬ starts_with_fence x then
          open_fence ++ x else x)

/-- C5 witness: a fence block split under a tiny limit stays balanced on a
concrete part. -/
theorem prepare_message_body_parts_fence_balanced_witness :
    count3bt [bq, bq, bq, '\n', 'c', '\n', bq, bq, bq, '\n'] % 2 = 0 :=
  prepare_message_body_parts_fence_balanced
    [bq, bq, bq, '\n', 'c', 'o', 'd', 'e', '\n', bq, bq, bq] 5
    [bq, bq, bq, '\n', 'c', '\n', bq, bq, bq, '\n'] (by decide)

/-- C10 counterexample: the empty body has length at most the limit and an
even fence count, yet `prepare_message_body` returns `[]`, not the
single-element list containing the body. -/
theorem prepare_message_body_short_identity_counterexample :
    ([] : Str).length ≤ 5 ∧ count3bt ([] : Str) % 2 = 0 ∧
      prepare_message_body [] 5 ≠ [([] : Str)] := by
  decide

/-- C10 (amended): for a NON-EMPTY body whose length is at most the
positive limit and whose fence count is even, `prepare_message_body` is
the identity, returning exactly `[body]`. -/
theorem prepare_message_body_short_identity (body : Str) (limit : Nat)
    (_hpos : 0 < limit) (hne : body ≠ []) (hlen : body.length ≤ limit)
    (heven : count3bt body % 2 = 0) :
    prepare_message_body body limit = [body] := by
  have hL : 0 < body.length := List.length_pos.mpr hne
  have hdiv : (body.length + limit - 1) / limit = 1 :=
    Nat.div_eq_of_lt_le (by omega) (by omega)
  have hsplit : split_string_after body limit = [body] := by
    unfold split_string_after
    rw [hdiv, show List.range 1 = [0] from by decide]
    simp [List.take_of_length_le hlen]
  unfold prepare_message_body
  rw [hsplit]
  show [if count3bt body % 2 ≠ 0 then body ++ close_fence else body] = [body]
  rw [if_neg (by omega)]

/-- C10 witness: the amended identity instantiated on a concrete short
body. -/
theorem prepare_message_body_short_identity_witness :
    prepare_message_body ['h', 'i'] 7 = [['h', 'i']] :=
  prepare_message_body_short_identity ['h', 'i'] 7 (by decide) (by decide)
    (by decide) (by decide)

/-- C1 counterexample: a raw payload that fails JSON decoding makes the
dispatcher itself raise (the `json.loads` call sits outside the
`try/except` block), so the dispatcher does NOT return normally for every
raw payload. -/
theorem mattermost_event_handler_invalid_counterexample :
    mattermost_event_handler sample_bot RawPayload.invalid =
      .error PyError.jsonDecodeError := rfl

/-- C1 (amended): for every payload that is empty/falsy or that decodes as
a JSON object, the dispatcher returns normally — exceptions raised by the
per-kind handlers are caught and swallowed and unknown event kinds are
ignored; only a payload that fails the JSON decode propagates an error. -/
theorem mattermost_event_handler_resilient (b : BotSt) (env : Envelope) :
    (∃ cbs, mattermost_event_handler b RawPayload.empty = .ok cbs) ∧
    (∃ cbs, mattermost_event_handler b (RawPayload.parsed env) = .ok cbs) := by
  refine ⟨⟨[], rfl⟩, ?_⟩
  rcases hev : env.event with _ | ev
  · exact ⟨[], by simp only [mattermost_event_handler, hev]⟩
  · rcases hd : event_dispatch b ev env with _ | res
    · exact ⟨[], by simp only [mattermost_event_handler, hev, hd]⟩
    · rcases res with e | cbs
      · exact ⟨[], by simp only [mattermost_event_handler, hev, hd]⟩
      · exact ⟨cbs, by simp only [mattermost_event_handler, hev, hd]⟩

/-- C3: a `posted` event whose `data.team_id` is non-empty and different
from the bot's bound team id is dropped by the message handler with no
emitted message, and the dispatcher produces no callback at all for it. -/
theorem cross_team_no_callback (b : BotSt) (env : Envelope) (d : MMData)
    (tid : Str) (hdata : env.data = some d) (htid : d.team_id = some tid)
    (hne : tid ≠ []) (hmismatch : b.teamid ≠ tid) :
    _message_event_handler b env = .ok (none, b) ∧
    (env.event = some "posted".toList →
      mattermost_event_handler b (.parsed env) = .ok []) := by
  have hmsg : _message_event_handler b env = .ok (none, b) := by
    unfold _message_event_handler
    rw [hdata]
    dsimp only
    rw [htid]
    dsimp only
    rw [if_pos ⟨hne, hmismatch⟩]
  have hpc : posted_callbacks b env = .ok [] := by
    unfold posted_callbacks
    rw [hmsg]
  refine ⟨hmsg, fun hev => ?_⟩
  have hd : event_dispatch b "posted".toList env = some (posted_callbacks b env) := by
    unfold event_dispatch
    rw [if_pos rfl]
  simp only [mattermost_event_handler, hev, hd, hpc]

/-- C3 witness: the cross-team drop instantiated on a concrete envelope
bound to team `T1` receiving an event from team `T2`. -/
theorem cross_team_no_callback_witness :
    _message_event_handler sample_bot env_cross_team = .ok (none, sample_bot) ∧
    (env_cross_team.event = some "posted".toList →
      mattermost_event_handler sample_bot (.parsed env_cross_team) = .ok []) :=
  cross_team_no_callback sample_bot env_cross_team
    { mmdata0 with team_id := some "T2".toList } "T2".toList rfl rfl
    (by decide) (by decide)

/-- C7: the status-change handler maps `online` to Online and `away` to
Away, coerces any other status string to Online, and always hands exactly
one presence to `callback_presence` when the envelope carries the fields. -/
theorem status_change_mapping (b : BotSt) (env : Envelope) (d : MMData)
    (uid st : Str) (hdata : env.data = some d) (huid : d.user_id = some uid)
    (hst : d.status = some st) :
    ∃ p, _status_change_event_handler b env = .ok p ∧ p.userid = uid ∧
      (st = "online".toList → p.status = MMStatus.online) ∧
      (st = "away".toList → p.status = MMStatus.away) ∧
      (st ≠ "online".toList → st ≠ "away".toList →
        p.status = MMStatus.online) ∧
      status_change_callbacks b env = .ok [Callback.presence p] := by
  have hh : _status_change_event_handler b env = .ok
      { userid := uid,
        status :=
          if st = "online".toList then MMStatus.online
          else if st = "away".toList then MMStatus.away
          else MMStatus.online } := by
    unfold _status_change_event_handler
    rw [hdata]
    dsimp only
    rw [huid]
    dsimp only
    rw [hst]
  refine ⟨_, hh, rfl, ?_, ?_, ?_, ?_⟩
  · intro h
    show (if st = "online".toList then MMStatus.online
          else if st = "away".toList then MMStatus.away
          else MMStatus.online) = MMStatus.online
    rw [if_pos h]
  · intro h
    show (if st = "online".toList then MMStatus.online
          else if st = "away".toList then MMStatus.away
          else MMStatus.online) = MMStatus.away
    rw [h, if_neg (by decide), if_pos rfl]
  · intro h1 h2
    show (if st = "online".toList then MMStatus.online
          else if st = "away".toList then MMStatus.away
          else MMStatus.online) = MMStatus.online
    rw [if_neg h1, if_neg h2]
  · unfold status_change_callbacks
    rw [hh]

/-- C7 witness: on an unrecognized status string `dnd` the handler still
emits a presence, coerced to Online. -/
theorem status_change_mapping_witness :
    ∃ p, _status_change_event_handler sample_bot env_status = .ok p ∧
      p.userid = "U7".toList ∧
      ("dnd".toList = "online".toList → p.status = MMStatus.online) ∧
      ("dnd".toList = "away".toList → p.status = MMStatus.away) ∧
      ("dnd".toList ≠ "online".toList → "dnd".toList ≠ "away".toList →
        p.status = MMStatus.online) ∧
      status_change_callbacks sample_bot env_status =
        .ok [Callback.presence p] :=
  status_change_mapping sample_bot env_status
    { mmdata0 with user_id := some "U7".toList, status := some "dnd".toList }
    "U7".toList "dnd".toList rfl rfl rfl

/-- A `fields` outcome of the post block with a sender id can only come
from a decoded embedded post whose `user_id` is that id. -/
theorem post_step_userid (d : MMData) (text uid : Str)
    (fids : Option (List Str)) (pid : Str)
    (h : post_step d = .ok (PostStep.fields text (some uid) fids pid)) :
    ∃ p, d.post = some (PostRaw.valid p) ∧ p.user_id = some uid := by
  unfold post_step at h
  rcases hdp : d.post with _ | pr
  · rw [hdp] at h
    exact absurd h (by simp)
  rw [hdp] at h
  rcases pr with _ | p
  · exact absurd h (by simp)
  dsimp only at h
  refine ⟨p, rfl, ?_⟩
  rcases hmsg : p.message with _ | text'
  · rw [hmsg] at h; exact absurd h (by simp)
  rw [hmsg] at h
  dsimp only at h
  rcases hpu : p.user_id with _ | puid
  · rw [hpu] at h; exact absurd h (by simp)
  rw [hpu] at h
  dsimp only at h
  rcases hpid : p.id with _ | pid'
  · rw [hpid] at h; exact absurd h (by simp)
  rw [hpid] at h
  dsimp only at h
  by_cases hty : p.type = some "system_add_remove".toList
  · rw [if_pos hty] at h
    exact absurd h (by simp)
  · rw [if_neg hty] at h
    simp only [Except.ok.injEq, PostStep.fields.injEq] at h
    exact h.2.1

/-- Inversion of a successful emission of the message handler: the
envelope fields that must be present, the resolved sender, and the
addressing shape for the two channel-type families. -/
theorem message_handler_emission_inv (b b' : BotSt) (env : Envelope)
    (d : MMData) (msg : EmittedMsg) (ms : List MMId)
    (hdata : env.data = some d)
    (h : _message_event_handler b env = .ok (some (msg, ms), b')) :
    ∃ broadcast channelid channel_type text userid0 file_ids post_id userid,
      env.broadcast = some broadcast ∧
      resolve_channelid d broadcast = some channelid ∧
      d.channel_type = some channel_type ∧
      post_step d = .ok (PostStep.fields text userid0 file_ids post_id) ∧
      sender_userid d userid0 = some userid ∧
      userid ≠ [] ∧
      MMId.uid msg.frm = userid ∧
      ((channel_type = ['D'] ∧
          msg.frm = MMId.person
            { userid := userid, channelid := some channelid,
              teamid := some b.teamid } ∧
          msg.«to» = MMId.person
            { userid := b.self_userid, channelid := some channelid,
              teamid := some b.teamid }) ∨
        ((channel_type = ['O'] ∨ channel_type = ['P']) ∧
          ∃ occ_room to_room,
            msg.frm = MMId.occupant
              { userid := userid, channelid := some channelid,
                teamid := some b.teamid } occ_room ∧
            msg.«to» = MMId.room to_room)) := by
  unfold _message_event_handler at h
  rw [hdata] at h
  dsimp only at h
  rcases htid : d.team_id with _ | tid
  · rw [htid] at h; exact absurd h (by simp)
  rw [htid] at h
  dsimp only at h
  by_cases hteam : tid ≠ [] ∧ b.teamid ≠ tid
  · rw [if_pos hteam] at h; exact absurd h (by simp)
  rw [if_neg hteam] at h
  rcases hbc : env.broadcast with _ | broadcast
  · rw [hbc] at h; exact absurd h (by simp)
  rw [hbc] at h
  dsimp only at h
  rcases hch : resolve_channelid d broadcast with _ | channelid
  · rw [hch] at h; exact absurd h (by simp)
  rw [hch] at h
  dsimp only at h
  rcases hct : d.channel_type with _ | channel_type
  · rw [hct] at h; exact absurd h (by simp)
  rw [hct] at h
  dsimp only at h
  rcases hcn : (if channel_type ≠ ['D'] then d.channel_name else some channelid)
    with _ | channel
  · rw [hcn] at h; exact absurd h (by simp)
  rw [hcn] at h
  dsimp only at h
  rcases hps : post_step d with e | pstep
  · rw [hps] at h; exact absurd h (by simp)
  rw [hps] at h
  rcases pstep with _ | ⟨text, userid0, file_ids, post_id⟩
  · dsimp only at h; exact absurd h (by simp)
  dsimp only at h
  rcases hsu : sender_userid d userid0 with _ | userid
  · rw [hsu] at h; exact absurd h (by simp)
  rw [hsu] at h
  dsimp only at h
  by_cases hue : userid = []
  · rw [if_pos hue] at h; exact absurd h (by simp)
  rw [if_neg hue] at h
  rcases hm : resolve_mentions b d with e | mpair
  · rw [hm] at h; exact absurd h (by simp)
  rcases mpair with ⟨mentions, b1⟩
  rw [hm] at h
  dsimp only at h
  by_cases hD : channel_type = ['D']
  · rw [if_pos hD] at h
    simp only [Except.ok.injEq, Prod.mk.injEq, Option.some.injEq] at h
    obtain ⟨⟨hmsg, hms⟩, hb1⟩ := h
    subst hmsg
    exact ⟨broadcast, channelid, channel_type, text, userid0, file_ids,
      post_id, userid, rfl, hch, rfl, rfl, hsu, hue, rfl,
      Or.inl ⟨hD, rfl, rfl⟩⟩
  · rw [if_neg hD] at h
    by_cases hOP : channel_type = ['O'] ∨ channel_type = ['P']
    · rw [if_pos hOP] at h
      rcases hr1 : MattermostRoom_init b1 none (some channelid) (some b.teamid)
        with e | occ_room
      · rw [hr1] at h; exact absurd h (by simp)
      rw [hr1] at h
      dsimp only at h
      rcases hr2 : MattermostRoom_init b1 (some channel) none (some b.teamid)
        with e | to_room
      · rw [hr2] at h; exact absurd h (by simp)
      rw [hr2] at h
      dsimp only at h
      simp only [Except.ok.injEq, Prod.mk.injEq, Option.some.injEq] at h
      obtain ⟨⟨hmsg, hms⟩, hb1⟩ := h
      subst hmsg
      exact ⟨broadcast, channelid, channel_type, text, userid0, file_ids,
        post_id, userid, rfl, hch, rfl, rfl, hsu, hue, rfl,
        Or.inr ⟨hOP, occ_room, to_room, rfl, rfl⟩⟩
    · rw [if_neg hOP] at h; exact absurd h (by simp)

/-- C2 counterexample: on an envelope whose embedded post is authored by
`UP` while the top-level `data.user_id` is `UD`, the emitted sender id is
`UD` — `data['user_id']` OVERRIDES the post's `user_id` (the source checks
`if 'user_id' in data` unconditionally, not only when the post is absent),
contradicting the claim that the post's user id is used whenever a post is
present. -/
theorem message_sender_resolution_counterexample :
    data_c2.post = some (PostRaw.valid post_c2) ∧
    post_c2.user_id = some "UP".toList ∧
    data_c2.user_id = some "UD".toList ∧
    ("UD".toList : Str) ≠ "UP".toList ∧
    _message_event_handler sample_bot env_c2 =
      .ok (some (msg_c2, []), sample_bot) ∧
    MMId.uid msg_c2.frm = "UD".toList :=
  ⟨rfl, rfl, rfl, by decide, rfl, rfl⟩

/-- C2 (amended): whenever the message handler emits a message, its sender
id is non-empty, equals `data.user_id` whenever that key is present
(whether or not an embedded post exists), and comes from the embedded
post's `user_id` when `data.user_id` is absent; consequently an event with
no resolvable non-empty sender id from either source is never emitted. -/
theorem message_sender_resolution (b b' : BotSt) (env : Envelope)
    (d : MMData) (msg : EmittedMsg) (ms : List MMId)
    (hdata : env.data = some d)
    (h : _message_event_handler b env = .ok (some (msg, ms), b')) :
    MMId.uid msg.frm ≠ [] ∧
    (∀ u, d.user_id = some u → MMId.uid msg.frm = u) ∧
    (d.user_id = none →
      ∃ p, d.post = some (PostRaw.valid p) ∧
        p.user_id = some (MMId.uid msg.frm)) := by
  obtain ⟨broadcast, channelid, channel_type, text, userid0, file_ids,
    post_id, userid, hbc, hch, hct, hps, hsu, hue, huid, _⟩ :=
    message_handler_emission_inv b b' env d msg ms hdata h
  rw [huid]
  refine ⟨hue, ?_, ?_⟩
  · intro u hdu
    unfold sender_userid at hsu
    rw [hdu] at hsu
    dsimp only at hsu
    injection hsu with hs
    exact hs.symm
  · intro hdu
    unfold sender_userid at hsu
    rw [hdu] at hsu
    dsimp only at hsu
    rw [hsu] at hps
    exact post_step_userid d text userid file_ids post_id hps

/-- C2 witness: the amended sender rule instantiated on the concrete
envelope carrying both sender sources. -/
theorem message_sender_resolution_witness :
    MMId.uid msg_c2.frm ≠ [] ∧
    (∀ u, data_c2.user_id = some u → MMId.uid msg_c2.frm = u) ∧
    (data_c2.user_id = none →
      ∃ p, data_c2.post = some (PostRaw.valid p) ∧
        p.user_id = some (MMId.uid msg_c2.frm)) :=
  message_sender_resolution sample_bot sample_bot env_c2 data_c2 msg_c2 []
    rfl rfl

/-- C6: when the message handler emits, a `D` channel type yields
Person-to-Person addressing (recipient carrying the bot's own userid),
`O`/`P` yield RoomOccupant-to-Room addressing, and no other channel type
ever emits; for any other channel type the `posted` event produces no
callback at all. -/
theorem message_addressing (b b' : BotSt) (env : Envelope) (d : MMData)
    (ct : Str) (msg : EmittedMsg) (ms : List MMId)
    (hdata : env.data = some d) (hct : d.channel_type = some ct) :
    (_message_event_handler b env = .ok (some (msg, ms), b') →
      ((ct = ['D'] → (∃ p, msg.frm = MMId.person p) ∧
          (∃ p, msg.«to» = MMId.person p ∧ p.userid = b.self_userid)) ∧
       ((ct = ['O'] ∨ ct = ['P']) →
          (∃ p r, msg.frm = MMId.occupant p r) ∧
          (∃ r, msg.«to» = MMId.room r)) ∧
       (ct = ['D'] ∨ ct = ['O'] ∨ ct = ['P']))) ∧
    (ct ≠ ['D'] → ct ≠ ['O'] → ct ≠ ['P'] →
      ∀ cbs, posted_callbacks b env = .ok cbs → cbs = []) := by
  constructor
  · intro h
    obtain ⟨broadcast, channelid, channel_type, text, userid0, file_ids,
      post_id, userid, hbc, hch, hct', hps, hsu, hue, huid, hdisj⟩ :=
      message_handler_emission_inv b b' env d msg ms hdata h
    rw [hct] at hct'
    injection hct' with hcteq
    subst hcteq
    rcases hdisj with ⟨hD, hfrm, hto⟩ | ⟨hOP, occ_room, to_room, hfrm, hto⟩
    · refine ⟨fun _ => ⟨⟨_, hfrm⟩, ⟨_, hto, rfl⟩⟩, fun hOP' => ?_, Or.inl hD⟩
      rw [hD] at hOP'
      rcases hOP' with h1 | h1 <;> exact absurd h1 (by decide)
    · refine ⟨fun hD' => ?_, fun _ => ⟨⟨_, _, hfrm⟩, ⟨_, hto⟩⟩, Or.inr hOP⟩
      rw [hD'] at hOP
      rcases hOP with h1 | h1 <;> exact absurd h1 (by decide)
  · intro hD hO hP cbs hpc
    unfold posted_callbacks at hpc
    rcases hh : _message_event_handler b env with e | pr
    · rw [hh] at hpc
      exact absurd hpc (by simp)
    rcases pr with ⟨out, b2⟩
    rcases out with _ | mp
    · rw [hh] at hpc
      dsimp only at hpc
      injection hpc with hc
      exact hc.symm
    · rcases mp with ⟨m2, ms2⟩
      obtain ⟨broadcast, channelid, channel_type, text, userid0, file_ids,
        post_id, userid, hbc, hch, hct', hps, hsu, hue, huid, hdisj⟩ :=
        message_handler_emission_inv b b2 env d m2 ms2 hdata hh
      rw [hct] at hct'
      injection hct' with hcteq
      rcases hdisj with ⟨hDD, _, _⟩ | ⟨hOP, _⟩
      · exact absurd (hcteq.trans hDD) hD
      · rcases hOP with h1 | h1
        · exact absurd (hcteq.trans h1) hO
        · exact absurd (hcteq.trans h1) hP

/-- C6 witness: the addressing rule instantiated on the concrete open
channel (`O`) envelope. -/
theorem message_addressing_witness :
    (_message_event_handler sample_bot env_c2 =
        .ok (some (msg_c2, []), sample_bot) →
      ((['O'] = ['D'] → (∃ p, msg_c2.frm = MMId.person p) ∧
          (∃ p, msg_c2.«to» = MMId.person p ∧
            p.userid = sample_bot.self_userid)) ∧
       ((['O'] = ['O'] ∨ ['O'] = ['P']) →
          (∃ p r, msg_c2.frm = MMId.occupant p r) ∧
          (∃ r, msg_c2.«to» = MMId.room r)) ∧
       (['O'] = ['D'] ∨ ['O'] = ['O'] ∨ ['O'] = ['P']))) ∧
    (['O'] ≠ ['D'] → ['O'] ≠ ['O'] → ['O'] ≠ ['P'] →
      ∀ cbs, posted_callbacks sample_bot env_c2 = .ok cbs → cbs = []) :=
  message_addressing sample_bot sample_bot env_c2 data_c2 ['O'] msg_c2 []
    rfl rfl

/-- The `channelid_to_channelname` lookup can fail only with a platform or
room-lookup error, never with a `ValueError`. -/
theorem channelid_to_channelname_no_valueError (b : BotSt) (cid : Option Str)
    (e : PyError) (s : String)
    (h : channelid_to_channelname b cid = .error e) :
    e ≠ PyError.valueError s := by
  unfold channelid_to_channelname at h
  rcases hgc : b.driver.get_channel cid with de | ch
  · rw [hgc] at h
    dsimp only at h
    injection h with he
    rw [← he]
    simp
  · rw [hgc] at h
    dsimp only at h
    rcases hnm : ch.name with _ | nm
    · rw [hnm] at h
      dsimp only at h
      injection h with he
      rw [← he]
      simp
    · rw [hnm] at h
      exact absurd h (by simp)

/-- C9: `MattermostRoom` construction raises when both `name` and
`channelid` are supplied and when `teamid` is absent; with both absent the
`channelid_to_channelname(None)` platform lookup fails and its error
propagates; with exactly one supplied and a teamid present, construction
succeeds (for a supplied channelid, as soon as the platform lookup
returns a named channel), and any failure on those inputs is a platform
error, never a `ValueError` validation failure. -/
theorem room_init_validation (b : BotSt) (name channelid teamid : Option Str) :
    (name.isSome → channelid.isSome →
      ∃ e, MattermostRoom_init b name channelid teamid = .error e) ∧
    (teamid = none →
      ∃ e, MattermostRoom_init b name channelid teamid = .error e) ∧
    (name = none → channelid = none →
      ∀ de, b.driver.get_channel none = .error de →
        ∃ e, MattermostRoom_init b name channelid teamid = .error e) ∧
    (∀ n tid, name = some n → channelid = none → teamid = some tid →
      ∃ r, MattermostRoom_init b name channelid teamid = .ok r) ∧
    (∀ cid tid ch nm, name = none → channelid = some cid → teamid = some tid →
      b.driver.get_channel (some cid) = .ok ch → ch.name = some nm →
      ∃ r, MattermostRoom_init b name channelid teamid = .ok r) ∧
    (∀ tid e s, teamid = some tid →
      (name.isSome ∧ channelid = none ∨ name = none ∧ channelid.isSome) →
      MattermostRoom_init b name channelid teamid = .error e →
      e ≠ PyError.valueError s) := by
  refine ⟨?_, ?_, ?_, ?_, ?_, ?_⟩
  · intro hn hc
    exact ⟨_, by unfold MattermostRoom_init; rw [if_pos ⟨hc, hn⟩]⟩
  · intro ht
    by_cases hb : channelid.isSome ∧ name.isSome
    · exact ⟨_, by unfold MattermostRoom_init; rw [if_pos hb]⟩
    · exact ⟨_, by unfold MattermostRoom_init; rw [if_neg hb, ht]⟩
  · intro hn hc de hde
    subst hn hc
    rcases teamid with _ | tid
    · exact ⟨_, by unfold MattermostRoom_init; rw [if_neg (by simp)]⟩
    · refine ⟨PyError.driverError de, ?_⟩
      unfold MattermostRoom_init channelid_to_channelname
      rw [if_neg (by simp)]
      dsimp only
      rw [hde]
  · intro n tid hn hc ht
    subst hn hc ht
    exact ⟨_, by unfold MattermostRoom_init; rw [if_neg (by simp)]⟩
  · intro cid tid ch nm hn hc ht hgc hnm
    subst hn hc ht
    refine ⟨{ name := nm, teamid := tid, id := some cid }, ?_⟩
    unfold MattermostRoom_init channelid_to_channelname
    rw [if_neg (by simp)]
    dsimp only
    rw [hgc]
    dsimp only
    rw [hnm]
  · intro tid e s ht hone herr
    subst ht
    rcases hone with ⟨hn, hc⟩ | ⟨hn, hc⟩
    · obtain ⟨n, rfl⟩ := Option.isSome_iff_exists.mp hn
      subst hc
      unfold MattermostRoom_init at herr
      rw [if_neg (by simp)] at herr
      dsimp only at herr
      exact absurd herr (by simp)
    · obtain ⟨cid, rfl⟩ := Option.isSome_iff_exists.mp hc
      subst hn
      unfold MattermostRoom_init at herr
      rw [if_neg (by simp)] at herr
      dsimp only at herr
      rcases hcc : channelid_to_channelname b (some cid) with e2 | nm
      · rw [hcc] at herr
        dsimp only at herr
        injection herr with he
        rw [← he]
        exact channelid_to_channelname_no_valueError b (some cid) e2 s hcc
      · rw [hcc] at herr
        exact absurd herr (by simp)

/-- C9 witness: the validation rules instantiated at concrete room
constructions against the sample clients. -/
theorem room_init_validation_witness :
    (∃ e, MattermostRoom_init sample_bot (some "general".toList)
        (some "C1".toList) (some "T1".toList) = .error e) ∧
    (∃ e, MattermostRoom_init sample_bot (some "general".toList)
        (some "C1".toList) none = .error e) ∧
    (∃ e, MattermostRoom_init sample_bot none none
        (some "T1".toList) = .error e) ∧
    (∃ r, MattermostRoom_init sample_bot (some "general".toList) none
        (some "T1".toList) = .ok r) ∧
    (∃ r, MattermostRoom_init sample_bot none (some "C1".toList)
        (some "T1".toList) = .ok r) ∧
    PyError.driverError DriverErr.resourceNotFound ≠ PyError.valueError "x" :=
  ⟨(room_init_validation sample_bot (some "general".toList)
      (some "C1".toList) (some "T1".toList)).1 rfl rfl,
   (room_init_validation sample_bot (some "general".toList)
      (some "C1".toList) none).2.1 rfl,
   (room_init_validation sample_bot none none
      (some "T1".toList)).2.2.1 rfl rfl DriverErr.resourceNotFound rfl,
   (room_init_validation sample_bot (some "general".toList) none
      (some "T1".toList)).2.2.2.1 "general".toList "T1".toList rfl rfl rfl,
   (room_init_validation sample_bot none (some "C1".toList)
      (some "T1".toList)).2.2.2.2.1 "C1".toList "T1".toList
      { id := some "C1".toList, name := some "general".toList }
      "general".toList rfl rfl rfl rfl rfl,
   (room_init_validation sample_bot_fail none (some "C1".toList)
      (some "T1".toList)).2.2.2.2.2 "T1".toList
      (PyError.driverError DriverErr.resourceNotFound) "x" rfl
      (Or.inr ⟨rfl, rfl⟩) rfl⟩

/-- Stripping a string that starts with `@` keeps the leading `@`: only
trailing whitespace can be removed. -/
theorem pystrip_at (name : Str) :
    pystrip ('@' :: name) =
      '@' :: (name.reverse.dropWhile Char.isWhitespace).reverse := by
  unfold pystrip
  have h1 : ('@' :: name).dropWhile Char.isWhitespace = '@' :: name := by
    rw [List.dropWhile_cons, if_neg (by decide)]
  rw [h1, List.reverse_cons, List.dropWhile_append]
  by_cases he : (name.reverse.dropWhile Char.isWhitespace).isEmpty
  · rw [if_pos he, List.isEmpty_iff.mp he]
    rw [List.dropWhile_cons, if_neg (by decide)]
    simp
  · rw [if_neg he, List.reverse_append]
    simp

/-- After a successful `get_direct_channel` call, the driver and identity
configuration are unchanged and a repeated call is served from the cache:
it returns the same channel, performs no platform call, and only moves the
entry to the front. -/
theorem get_direct_channel_repeat (b : BotSt) (u o : Str) (ch : MMChannel)
    (b1 : BotSt)
    (h : get_direct_channel b u o = .ok (ch, b1)) :
    b1.driver = b.driver ∧ b1.self_userid = b.self_userid ∧
    b1.teamid = b.teamid ∧
    get_direct_channel b1 u o =
      .ok (ch,
        { b1 with
          cache := ((u, o), ch) ::
              b1.cache.eraseP (fun x => x.1 == (u, o)) }) := by
  unfold get_direct_channel at h ⊢
  dsimp only at h ⊢
  rcases hf : b.cache.find? (fun e => e.1 == (u, o)) with _ | entry
  · rw [hf] at h
    dsimp only at h
    rcases hcr : b.driver.create_direct_message_channel u o with de | ch2
    · rw [hcr] at h
      dsimp only at h
      by_cases hde : (de = DriverErr.invalidOrMissingParameters ∨
          de = DriverErr.notEnoughPermissions)
      · rw [if_pos hde] at h; exact absurd h (by simp)
      · rw [if_neg hde] at h; exact absurd h (by simp)
    · rw [hcr] at h
      dsimp only at h
      simp only [Except.ok.injEq, Prod.mk.injEq] at h
      obtain ⟨hch, hb1⟩ := h
      subst hch
      subst hb1
      refine ⟨rfl, rfl, rfl, ?_⟩
      have hfind :
          ((((u, o), ch2) ::
            b.cache.eraseP (fun x => x.1 == (u, o))).take 1024).find?
              (fun e => e.1 == (u, o)) = some ((u, o), ch2) := by
        rw [show (1024 : Nat) = 1023 + 1 from rfl, List.take_succ_cons,
          List.find?_cons]
        simp
      dsimp only
      rw [hfind]
  · rw [hf] at h
    dsimp only at h
    simp only [Except.ok.injEq, Prod.mk.injEq] at h
    obtain ⟨hch, hb1⟩ := h
    subst hch
    subst hb1
    refine ⟨rfl, rfl, rfl, ?_⟩
    have hfind :
        (((u, o), entry.2) ::
          b.cache.eraseP (fun x => x.1 == (u, o))).find?
            (fun e => e.1 == (u, o)) = some ((u, o), entry.2) := by
      rw [List.find?_cons]
      simp
    dsimp only
    rw [hfind]

/-- C8: resolving the same `@username` reference twice returns persons
with identical userid and channelid, and the second resolution's
direct-channel lookup is a cache hit — the platform-call counter for
`create_direct_message_channel` does not increase. -/
theorem build_identifier_idempotent (b b1 : BotSt) (name : Str)
    (p1 : MPerson)
    (h : build_identifier b ('@' :: name) = .ok (.person p1, b1)) :
    ∃ p2 b2, build_identifier b1 ('@' :: name) = .ok (.person p2, b2) ∧
      p2.userid = p1.userid ∧ p2.channelid = p1.channelid ∧
      b2.direct_calls = b1.direct_calls := by
  unfold build_identifier at h ⊢
  rw [pystrip_at name] at h ⊢
  generalize hts : (name.reverse.dropWhile Char.isWhitespace).reverse = ts
    at h ⊢
  dsimp only at h ⊢
  rw [if_neg (by simp)] at h ⊢
  rw [if_pos (show ('@' :: ts).head? = some '@' from rfl)] at h ⊢
  simp only [List.drop_one, List.tail_cons] at h ⊢
  rcases hu : username_to_userid b ts with e | uid
  · rw [hu] at h; exact absurd h (by simp)
  rw [hu] at h
  dsimp only at h
  rcases hdc : get_direct_channel b b.self_userid uid with e | chpair
  · rw [hdc] at h; exact absurd h (by simp)
  rcases chpair with ⟨ch, b1'⟩
  rw [hdc] at h
  dsimp only at h
  rcases hid : ch.id with _ | cid
  · rw [hid] at h; exact absurd h (by simp)
  rw [hid] at h
  dsimp only at h
  simp only [Except.ok.injEq, Prod.mk.injEq, MMId.person.injEq] at h
  obtain ⟨hp, hb⟩ := h
  subst hb
  obtain ⟨hdrv, hself, hteam, hsecond⟩ :=
    get_direct_channel_repeat b b.self_userid uid ch b1' hdc
  have hu2 : username_to_userid b1' ts = .ok uid := by
    unfold username_to_userid at hu ⊢
    rw [hdrv]
    exact hu
  rw [hu2]
  dsimp only
  rw [hself, hsecond]
  dsimp only
  rw [hid]
  dsimp only
  refine ⟨_, _, rfl, ?_, ?_, rfl⟩
  · rw [← hp]
  · rw [← hp]

/-- C8 witness: resolving `@bob` a second time from the post-resolution
state returns the same userid `U1` and channelid `D1` with no additional
platform call. -/
theorem build_identifier_idempotent_witness :
    ∃ p2 b2, build_identifier bot_c8 ('@' :: "bob".toList) =
        .ok (.person p2, b2) ∧
      p2.userid = person_c8.userid ∧ p2.channelid = person_c8.channelid ∧
      b2.direct_calls = bot_c8.direct_calls :=
  build_identifier_idempotent sample_bot bot_c8 "bob".toList person_c8 rfl
